import Mathlib

/-!
Shallow embedding of `annotator/store.py` (the annotator-store Flask blueprint)
and proofs about its request handlers.

Python values that arrive from a parsed JSON body are modelled by the `JSON`
inductive below; Python dicts are modelled as insertion-ordered association
lists with unique keys (uniqueness is carried as a hypothesis where a proof
needs it).  Python `None` is identified with `JSON.null`, which matches the
behaviour of the `json` module (JSON `null` parses to `None`) and of
`request.json` (absent body gives `None`).
-/

set_option maxHeartbeats 1000000
set_option maxRecDepth 100000

/-- A JSON-compatible Python value (the payloads `store.py` manipulates).
Numbers are modelled as integers; no handler does arithmetic on them. -/
inductive JSON where
  | null : JSON
  | bool : Bool → JSON
  | num : Int → JSON
  | str : String → JSON
  | arr : List JSON → JSON
  | obj : List (String × JSON) → JSON

mutual

/-- Structural (Lean-level) equality test on `JSON`. -/
def beqJ : JSON → JSON → Bool
  | .null, .null => true
  | .bool a, .bool b => a == b
  | .num a, .num b => a == b
  | .str a, .str b => a == b
  | .arr a, .arr b => beqL a b
  | .obj a, .obj b => beqO a b
  | _, _ => false

def beqL : List JSON → List JSON → Bool
  | [], [] => true
  | a :: as, b :: bs => beqJ a b && beqL as bs
  | _, _ => false

def beqO : List (String × JSON) → List (String × JSON) → Bool
  | [], [] => true
  | (k1, v1) :: as, (k2, v2) :: bs => k1 == k2 && beqJ v1 v2 && beqO as bs
  | _, _ => false

end

mutual

theorem beqJ_eq : ∀ a b : JSON, beqJ a b = true ↔ a = b
  | .null, .null => by simp [beqJ]
  | .null, .bool _ => by simp [beqJ]
  | .null, .num _ => by simp [beqJ]
  | .null, .str _ => by simp [beqJ]
  | .null, .arr _ => by simp [beqJ]
  | .null, .obj _ => by simp [beqJ]
  | .bool _, .null => by simp [beqJ]
  | .bool a, .bool b => by simp [beqJ]
  | .bool _, .num _ => by simp [beqJ]
  | .bool _, .str _ => by simp [beqJ]
  | .bool _, .arr _ => by simp [beqJ]
  | .bool _, .obj _ => by simp [beqJ]
  | .num _, .null => by simp [beqJ]
  | .num _, .bool _ => by simp [beqJ]
  | .num a, .num b => by simp [beqJ]
  | .num _, .str _ => by simp [beqJ]
  | .num _, .arr _ => by simp [beqJ]
  | .num _, .obj _ => by simp [beqJ]
  | .str _, .null => by simp [beqJ]
  | .str _, .bool _ => by simp [beqJ]
  | .str _, .num _ => by simp [beqJ]
  | .str a, .str b => by simp [beqJ]
  | .str _, .arr _ => by simp [beqJ]
  | .str _, .obj _ => by simp [beqJ]
  | .arr _, .null => by simp [beqJ]
  | .arr _, .bool _ => by simp [beqJ]
  | .arr _, .num _ => by simp [beqJ]
  | .arr _, .str _ => by simp [beqJ]
  | .arr a, .arr b => by simp [beqJ, beqL_eq a b]
  | .arr _, .obj _ => by simp [beqJ]
  | .obj _, .null => by simp [beqJ]
  | .obj _, .bool _ => by simp [beqJ]
  | .obj _, .num _ => by simp [beqJ]
  | .obj _, .str _ => by simp [beqJ]
  | .obj _, .arr _ => by simp [beqJ]
  | .obj a, .obj b => by simp [beqJ, beqO_eq a b]

theorem beqL_eq : ∀ a b : List JSON, beqL a b = true ↔ a = b
  | [], [] => by simp [beqL]
  | [], _ :: _ => by simp [beqL]
  | _ :: _, [] => by simp [beqL]
  | a :: as, b :: bs => by
      simp [beqL, beqJ_eq a b, beqL_eq as bs]

theorem beqO_eq : ∀ a b : List (String × JSON), beqO a b = true ↔ a = b
  | [], [] => by simp [beqO]
  | [], _ :: _ => by simp [beqO]
  | _ :: _, [] => by simp [beqO]
  | (k1, v1) :: as, (k2, v2) :: bs => by
      simp [beqO, beqJ_eq v1 v2, beqO_eq as bs, and_assoc]

end

instance : DecidableEq JSON := fun a b =>
  decidable_of_iff (beqJ a b = true) (beqJ_eq a b)

/-- A Python dict with values of type `α`, as an insertion-ordered
association list. -/
abbrev Dict (α : Type) := List (String × α)

/-- A Python dict holding JSON values (the shape of `request.json` objects
and of stored records). -/
abbrev Obj := Dict JSON

/-- Python `d[k]` / `d.get(k)`: first binding of `k`. -/
def dictLookup {α : Type} : Dict α → String → Option α
  | [], _ => none
  | (k', v) :: rest, k => if k' = k then some v else dictLookup rest k

/-- Python `d[k] = v`: overwrite in place if the key exists (keeping its
insertion position), otherwise append. -/
def dictSet {α : Type} : Dict α → String → α → Dict α
  | [], k, v => [(k, v)]
  | (k', v') :: rest, k, v =>
    if k' = k then (k', v) :: rest else (k', v') :: dictSet rest k v

/-- Python `d.pop(k, None)`: drop the binding of `k` if present. -/
def dictPop {α : Type} (d : Dict α) (k : String) : Dict α :=
  d.filter (fun p => p.1 ≠ k)

/-- Python `d.get(k, default)`. -/
def dictGetD {α : Type} (d : Dict α) (k : String) (default : α) : α :=
  (dictLookup d k).getD default

/-- Python `d.update(u)`: shallow merge, each binding of `u` written into `d`
in order. -/
def dictUpdate {α : Type} (d u : Dict α) : Dict α :=
  u.foldl (fun acc p => dictSet acc p.1 p.2) d

/-- Python truthiness of a JSON value (`if x:`): `None`, `False`, `0`, `""`,
`[]` and `{}` are falsy, everything else truthy. -/
def truthy : JSON → Bool
  | .null => false
  | .bool b => b
  | .num n => n != 0
  | .str s => s != ""
  | .arr xs => !xs.isEmpty
  | .obj d => !d.isEmpty

/-!
Python `==` on JSON values is order-insensitive on dicts and identifies
`True`/`False` with `1`/`0`, so it cannot be the structural equality above.
The implementation below threads an explicit fuel so that the mutual
recursion is structural (hence kernel-computable); `pyEq` passes
`jsize a + jsize b + 1` fuel, which dominates every chain of recursive
calls (each call strictly decreases the combined size of its arguments
while consuming one unit), so the `0`-fuel branches are unreachable.
-/

mutual

def pyEqF : Nat → JSON → JSON → Bool
  | 0, _, _ => false
  | f + 1, a, b =>
    match a, b with
    | .null, .null => true
    | .bool x, .bool y => x == y
    | .bool x, .num n => (if x then (1 : Int) else 0) == n
    | .num n, .bool x => n == (if x then (1 : Int) else 0)
    | .num x, .num y => x == y
    | .str x, .str y => x == y
    | .arr xs, .arr ys => pyEqLF f xs ys
    | .obj xs, .obj ys => pyEqSubF f xs ys && pyEqSubF f ys xs
    | _, _ => false

def pyEqLF : Nat → List JSON → List JSON → Bool
  | 0, _, _ => false
  | _ + 1, [], [] => true
  | f + 1, a :: as, b :: bs => pyEqF f a b && pyEqLF f as bs
  | _ + 1, _, _ => false

/-- Every binding of the first dict is matched by a Python-equal binding in
the second. -/
def pyEqSubF : Nat → List (String × JSON) → List (String × JSON) → Bool
  | 0, _, _ => false
  | _ + 1, [], _ => true
  | f + 1, (k, v) :: rest, b => pyLookupEqF f v b k && pyEqSubF f rest b

/-- Scan the dict for key `k` and compare its value to `v` by Python
equality (`false` when the key is absent). -/
def pyLookupEqF : Nat → JSON → List (String × JSON) → String → Bool
  | 0, _, _, _ => false
  | _ + 1, _, [], _ => false
  | f + 1, v, (k1, w) :: rest, k =>
    if k1 = k then pyEqF f v w else pyLookupEqF f v rest k

end

mutual

/-- A computable size of a JSON value, used as the fuel bound for `pyEq`. -/
def jsize : JSON → Nat
  | .null => 1
  | .bool _ => 1
  | .num _ => 1
  | .str _ => 1
  | .arr xs => 1 + jsizeL xs
  | .obj d => 1 + jsizeO d

def jsizeL : List JSON → Nat
  | [] => 1
  | x :: xs => 1 + jsize x + jsizeL xs

def jsizeO : List (String × JSON) → Nat
  | [] => 1
  | (_, v) :: rest => 1 + jsize v + jsizeO rest

end

/-- Python `==` on JSON-compatible values: booleans compare equal to the
numbers 1 and 0, lists compare elementwise, dicts compare as key/value sets
regardless of insertion order. -/
def pyEq (a b : JSON) : Bool :=
  pyEqF (jsize a + jsize b + 1) a b

/-- One-step unfolding of `pyEqF` at a successor fuel. -/
theorem pyEqF_step (f : Nat) (a b : JSON) :
    pyEqF (f + 1) a b =
      match a, b with
      | .null, .null => true
      | .bool x, .bool y => x == y
      | .bool x, .num n => (if x then (1 : Int) else 0) == n
      | .num n, .bool x => n == (if x then (1 : Int) else 0)
      | .num x, .num y => x == y
      | .str x, .str y => x == y
      | .arr xs, .arr ys => pyEqLF f xs ys
      | .obj xs, .obj ys => pyEqSubF f xs ys && pyEqSubF f ys xs
      | _, _ => false := rfl

mutual

/-- Python `repr` of a JSON-compatible value (string escaping not
modelled). -/
def pyRepr : JSON → String
  | .null => "None"
  | .bool true => "True"
  | .bool false => "False"
  | .num n => toString n
  | .str s => "'" ++ s ++ "'"
  | .arr xs => "[" ++ pyReprL xs ++ "]"
  | .obj d => "\x7b" ++ pyReprO d ++ "\x7d"

def pyReprL : List JSON → String
  | [] => ""
  | [x] => pyRepr x
  | x :: xs => pyRepr x ++ ", " ++ pyReprL xs

def pyReprO : Obj → String
  | [] => ""
  | [(k, v)] => "'" ++ k ++ "': " ++ pyRepr v
  | (k, v) :: rest => "'" ++ k ++ "': " ++ pyRepr v ++ ", " ++ pyReprO rest

end

/-- Python `str` of a JSON-compatible value, as string formatting renders
it. -/
def pyStr : JSON → String
  | .str s => s
  | v => pyRepr v

/-- Digits of a decimal literal with single underscore separators between
digit groups; the boolean says whether the previous character was a digit. -/
def parseIntCore : List Char → Nat → Bool → Option Nat
  | [], acc, true => some acc
  | [], _, false => none
  | c :: cs, acc, prev =>
    if c.isDigit then parseIntCore cs (acc * 10 + (c.toNat - 48)) true
    else if c = '_' && prev then parseIntCore cs acc false
    else none

/-- The characters of `s` with surrounding whitespace stripped (Python
`str.strip()`). -/
def stripChars (s : String) : List Char :=
  ((s.data.dropWhile Char.isWhitespace).reverse.dropWhile Char.isWhitespace).reverse

/-- Python `int(s)` on a string: surrounding whitespace stripped, optional
sign, decimal digits (with underscore group separators); `none` models
`ValueError`. -/
def pyInt (s : String) : Option Int :=
  match stripChars s with
  | '-' :: cs => (parseIntCore cs 0 false).map (fun n => -(n : Int))
  | '+' :: cs => (parseIntCore cs 0 false).map (fun n => (n : Int))
  | cs => (parseIntCore cs 0 false).map (fun n => (n : Int))

/-- An API consumer (client application), of which the caller's user holds
the key. -/
structure Consumer where
  key : String
deriving DecidableEq

/-- An authenticated caller: `g.user` with its `id` and `consumer.key`. -/
structure User where
  id : JSON
  consumer : Consumer

/-- The per-request context `g` together with the external collaborators the
handlers call through it: the resolved caller (`g.user`, `none` when
anonymous), the authorization function (`g.authorize`) and the optional
lifecycle hooks (`g.after_annotation_create`, `g.before_annotation_update`,
modelled as record-transforming callbacks). -/
structure Env where
  user : Option User
  authorize : Obj → String → Option User → Bool
  after_create_hook : Option (Obj → Obj)
  before_update_hook : Option (Obj → Obj)

/-- An HTTP response as `jsonify` builds it: a status code and a JSON
body (`JSON.null` for the empty body of a 204). -/
structure HttpResponse where
  status : Nat
  body : JSON
deriving DecidableEq

/-- `jsonify(obj, status=status)` from `store.py`. -/
def jsonify (body : JSON) (status : Nat) : HttpResponse :=
  ⟨status, body⟩

/-- `g.user.id if g.user else None`, rendered the way `str.format` renders
it into the failure message. -/
def userRender : Option User → String
  | none => "None"
  | some u => pyStr u.id

/-- `g.user.consumer.key if g.user else None`, rendered into the failure
message. -/
def consumerRender : Option User → String
  | none => "None"
  | some u => u.consumer.key

/-- `_failed_authz_response(msg)` from `store.py`. -/
def failed_authz_response (msg : String) (user : Option User) : HttpResponse :=
  jsonify (.str ("Cannot authorize request" ++
    (if msg ≠ "" then " (" ++ msg ++ ")" else "") ++
    ". Perhaps you're not logged in as a user with appropriate permissions on this annotation? (user="
    ++ userRender user ++ ", consumer=" ++ consumerRender user ++ ")")) 401

/-- `_check_action(annotation, action, message)` from `store.py`: `none`
when the action is authorized, otherwise the 401 failure response. -/
def check_action (env : Env) (ann : Obj) (action : String) (message : String) :
    Option HttpResponse :=
  if env.authorize ann action env.user then none
  else some (failed_authz_response message env.user)

def CREATE_FILTER_FIELDS : List String := ["updated", "created", "consumer"]

def UPDATE_FILTER_FIELDS : List String := ["updated", "created", "user", "consumer"]

/-- `_filter_input(obj, fields)` from `store.py`. -/
def filter_input (obj : Obj) (fields : List String) : Obj :=
  fields.foldl dictPop obj

/-- `_get_annotation_user(ann)` from `store.py`: the best guess at the
record's owner id (`None` when the `user` field is absent or falsy; a
mapping's `id` key; otherwise the bare value, which raises no error since
only mappings have `.get`). -/
def get_annotation_user (ann : Obj) : JSON :=
  let user := dictGetD ann "user" .null
  if truthy user then
    match user with
    | .obj d => dictGetD d "id" .null
    | v => v
  else .null

/-- A handler outcome together with the records handed to `save`, in order.
`none` models an unhandled Python exception (a truthy non-dict body reaching
`_filter_input`, whose `.pop` calls raise). -/
abbrev HandlerResult := Option (HttpResponse × List Obj)

/-- The record that `create_annotation` builds from a dict body `o` before
the first `save`: the body minus `CREATE_FILTER_FIELDS`, `consumer` set to
the caller's consumer key, and `user` overwritten with the caller's id
unless the record's resolved user already equals it (Python `!=`). -/
def create_record (u : User) (o : Obj) : Obj :=
  let a0 := filter_input o CREATE_FILTER_FIELDS
  let a1 := dictSet a0 "consumer" (.str u.consumer.key)
  if !pyEq (get_annotation_user a1) u.id then dictSet a1 "user" u.id else a1

/-- The `POST /annotations` handler `create_annotation` from `store.py`.
`reqJson` is `request.json` (`JSON.null` when no JSON body was sent). -/
def create_ann (env : Env) (reqJson : JSON) : HandlerResult :=
  match env.user with
  | none => some (failed_authz_response "create annotation" none, [])
  | some u =>
    if truthy reqJson then
      match reqJson with
      | .obj o =>
        let a2 := create_record u o
        match env.after_create_hook with
        | some f => some (jsonify (.obj (f a2)) 200, [a2, f a2])
        | none => some (jsonify (.obj a2) 200, [a2])
      | _ => none
    else
      some (jsonify (.str "No JSON payload sent. Annotation not created.") 400, [])

/-- `if not annotation:` on a fetch result: true when `Annotation.fetch`
returned `None` or an empty (falsy) record. -/
def fetchFalsy : Option Obj → Bool
  | none => true
  | some a => a.isEmpty

/-- The `GET /annotations/<id>` handler `read_annotation` from `store.py`;
`fetched` is the `Annotation.fetch(id)` result. -/
def read_ann (env : Env) (fetched : Option Obj) : HttpResponse :=
  if fetchFalsy fetched then jsonify (.str "Annotation not found!") 404
  else
    let ann := fetched.getD []
    match check_action env ann "read" "" with
    | some failure => failure
    | none => jsonify (.obj ann) 200

/-- The filtered update record of `update_annotation`: the body minus
`UPDATE_FILTER_FIELDS`, with `id` forced to the URL path id. -/
def update_payload (o : Obj) (id : String) : Obj :=
  dictSet (filter_input o UPDATE_FILTER_FIELDS) "id" (.str id)

/-- The `'permissions' in updated and updated['permissions'] != annotation.get('permissions', {})`
test of `update_annotation` (Python `!=`, missing stored permissions
defaulting to the empty dict). -/
def perm_changed (ann updated : Obj) : Bool :=
  match dictLookup updated "permissions" with
  | some p => !pyEq p (dictGetD ann "permissions" (.obj []))
  | none => false

/-- `annotation.update(updated)` followed by the optional before-update
hook and `annotation.save()`: the response and the single saved record. -/
def merge_and_save (env : Env) (ann updated : Obj) : HttpResponse × List Obj :=
  let merged := dictUpdate ann updated
  let merged2 := match env.before_update_hook with
    | some f => f merged
    | none => merged
  (jsonify (.obj merged2) 200, [merged2])

/-- The `POST/PUT /annotations/<id>` handler `update_annotation` from
`store.py`; `fetched` is the `Annotation.fetch(id)` result and `id` the URL
path id. -/
def update_ann (env : Env) (fetched : Option Obj) (id : String) (reqJson : JSON) :
    HandlerResult :=
  if fetchFalsy fetched then
    some (jsonify (.str "Annotation not found! No update performed.") 404, [])
  else
    let ann := fetched.getD []
    match check_action env ann "update" "" with
    | some failure => some (failure, [])
    | none =>
      if truthy reqJson then
        match reqJson with
        | .obj o =>
          let updated := update_payload o id
          if perm_changed ann updated then
            match check_action env ann "admin" "permissions update" with
            | some failure => some (failure, [])
            | none => some (merge_and_save env ann updated)
          else
            some (merge_and_save env ann updated)
        | _ => none
      else
        some (jsonify (.obj ann) 200, [])

/-- The `DELETE /annotations/<id>` handler `delete_annotation` from
`store.py`; the boolean records whether `annotation.delete()` was called. -/
def delete_ann (env : Env) (fetched : Option Obj) : HttpResponse × Bool :=
  if fetchFalsy fetched then
    (jsonify (.str "Annotation not found. No delete performed.") 404, false)
  else
    let ann := fetched.getD []
    match check_action env ann "delete" "" with
    | some failure => (failure, false)
    | none => (⟨204, .null⟩, true)

/-- A value of the `kwargs` dict in `search_annotations`: the original query
string value, or the integer that `_quiet_int` put in its place. -/
inductive KwargVal where
  | s : String → KwargVal
  | i : Int → KwargVal
deriving DecidableEq

abbrev Kwargs := Dict KwargVal

/-- `_quiet_int(obj, default)` from `store.py`: `int(obj)` with `ValueError`
silenced to the default (an `int` argument converts to itself). -/
def quiet_int (v : KwargVal) (d : Int) : Int :=
  match v with
  | .s t => (pyInt t).getD d
  | .i n => n

/-- `if 'offset' in kwargs: kwargs['offset'] = _quiet_int(kwargs['offset'])`. -/
def search_offset_step (kw : Kwargs) : Kwargs :=
  match dictLookup kw "offset" with
  | some v => dictSet kw "offset" (.i (quiet_int v 0))
  | none => kw

/-- `if 'limit' in kwargs: kwargs['limit'] = _quiet_int(kwargs['limit'], 20)`. -/
def search_limit_step (kw : Kwargs) : Kwargs :=
  match dictLookup kw "limit" with
  | some v => dictSet kw "limit" (.i (quiet_int v 20))
  | none => kw

/-- The `kwargs` mapping that `search_annotations` builds from the query
parameters: all query values as strings, then `offset` and `limit` replaced
by their `_quiet_int` parses when present. -/
def search_kwargs (args : Dict String) : Kwargs :=
  search_limit_step (search_offset_step (args.map (fun p => (p.1, .s p.2))))

/-- The storage collaborator's search/count interface
(`Annotation.search(**kwargs)` and `Annotation.count(**kwargs)`). -/
structure SearchBackend where
  search : Kwargs → List JSON
  count : Kwargs → Int

/-- The `GET /search` handler `search_annotations` from `store.py`: the
response together with the criteria passed to the backend `search` call and
to the backend `count` call. -/
def search_anns (be : SearchBackend) (args : Dict String) :
    HttpResponse × Kwargs × Kwargs :=
  let kwargs := search_kwargs args
  let results := be.search kwargs
  let total := be.count kwargs
  (jsonify (.obj [("total", .num total), ("rows", .arr results)]) 200, kwargs, kwargs)

/-! ## Dictionary lemmas -/

theorem dictLookup_dictSet_self {α : Type} (d : Dict α) (k : String) (v : α) :
    dictLookup (dictSet d k v) k = some v := by
  induction d with
  | nil => simp [dictSet, dictLookup]
  | cons p rest ih =>
    obtain ⟨k', v'⟩ := p
    by_cases h : k' = k <;> simp [dictSet, dictLookup, h, ih]

theorem dictLookup_dictSet_ne {α : Type} (d : Dict α) (k k' : String) (v : α)
    (h : k' ≠ k) : dictLookup (dictSet d k v) k' = dictLookup d k' := by
  induction d with
  | nil => simp [dictSet, dictLookup, Ne.symm h]
  | cons p rest ih =>
    obtain ⟨k1, v1⟩ := p
    by_cases h1 : k1 = k <;> by_cases h2 : k1 = k' <;>
      simp_all [dictSet, dictLookup]

theorem dictLookup_dictPop {α : Type} (d : Dict α) (f k : String) :
    dictLookup (dictPop d f) k = if k = f then none else dictLookup d k := by
  induction d with
  | nil => simp [dictPop, dictLookup]
  | cons p rest ih =>
    obtain ⟨k1, v1⟩ := p
    by_cases h1 : k1 = f <;> by_cases h2 : k1 = k <;>
      simp_all [dictPop, dictLookup, List.filter]

theorem dictLookup_filter_input (o : Obj) (fields : List String) (k : String) :
    dictLookup (filter_input o fields) k =
      if k ∈ fields then none else dictLookup o k := by
  induction fields generalizing o with
  | nil => simp [filter_input]
  | cons f fs ih =>
    have step : filter_input o (f :: fs) = filter_input (dictPop o f) fs := rfl
    rw [step, ih]
    by_cases h1 : k ∈ fs <;> by_cases h2 : k = f <;>
      simp_all [dictLookup_dictPop]

theorem dictLookup_eq_none_of_not_mem {α : Type} {d : Dict α} {k : String}
    (h : k ∉ d.map Prod.fst) : dictLookup d k = none := by
  induction d with
  | nil => rfl
  | cons p rest ih =>
    obtain ⟨k1, v1⟩ := p
    simp only [List.map_cons, List.mem_cons] at h
    push_neg at h
    simp [dictLookup, Ne.symm h.1, ih h.2]

theorem mem_keys_dictSet {α : Type} {d : Dict α} {k x : String} {v : α}
    (h : x ∈ (dictSet d k v).map Prod.fst) : x ∈ d.map Prod.fst ∨ x = k := by
  induction d with
  | nil => simpa [dictSet] using h
  | cons p rest ih =>
    obtain ⟨k1, v1⟩ := p
    by_cases h1 : k1 = k
    · simp_all [dictSet]
    · simp only [dictSet, if_neg h1, List.map_cons, List.mem_cons] at h
      rcases h with h | h
      · simp [h]
      · rcases ih h with h | h
        · simp [h]
        · simp [h]

theorem nodup_keys_dictSet {α : Type} {d : Dict α} (k : String) (v : α)
    (h : (d.map Prod.fst).Nodup) : ((dictSet d k v).map Prod.fst).Nodup := by
  induction d with
  | nil => simp [dictSet]
  | cons p rest ih =>
    obtain ⟨k1, v1⟩ := p
    simp only [List.map_cons, List.nodup_cons] at h
    by_cases h1 : k1 = k
    · simpa [dictSet, h1] using h
    · simp only [dictSet, if_neg h1, List.map_cons, List.nodup_cons]
      refine ⟨fun hmem => ?_, ih h.2⟩
      rcases mem_keys_dictSet hmem with hm | hm
      · exact h.1 hm
      · exact h1 hm

theorem nodup_keys_dictPop {α : Type} {d : Dict α} (k : String)
    (h : (d.map Prod.fst).Nodup) : ((dictPop d k).map Prod.fst).Nodup := by
  have hsub : (dictPop d k).Sublist d := List.filter_sublist d
  exact (hsub.map Prod.fst).nodup h

theorem nodup_keys_filter_input {o : Obj} (fields : List String)
    (h : (o.map Prod.fst).Nodup) :
    ((filter_input o fields).map Prod.fst).Nodup := by
  induction fields generalizing o with
  | nil => exact h
  | cons f fs ih =>
    have step : filter_input o (f :: fs) = filter_input (dictPop o f) fs := rfl
    rw [step]
    exact ih (nodup_keys_dictPop f h)

theorem dictUpdate_cons {α : Type} (d : Dict α) (k : String) (v : α)
    (u : Dict α) :
    dictUpdate d ((k, v) :: u) = dictUpdate (dictSet d k v) u := rfl

theorem dictLookup_dictUpdate_of_none {α : Type} {u : Dict α} (d : Dict α)
    {k : String} (h : dictLookup u k = none) :
    dictLookup (dictUpdate d u) k = dictLookup d k := by
  induction u generalizing d with
  | nil => rfl
  | cons p us ih =>
    obtain ⟨k1, v1⟩ := p
    rw [dictLookup] at h
    by_cases h1 : k1 = k
    · simp [h1] at h
    · rw [if_neg h1] at h
      rw [dictUpdate_cons, ih _ h, dictLookup_dictSet_ne _ _ _ _ (fun hh => h1 hh.symm)]

theorem dictLookup_dictUpdate_of_some {α : Type} {u : Dict α} (d : Dict α)
    {k : String} {v : α} (hu : (u.map Prod.fst).Nodup)
    (h : dictLookup u k = some v) :
    dictLookup (dictUpdate d u) k = some v := by
  induction u generalizing d with
  | nil => simp [dictLookup] at h
  | cons p us ih =>
    obtain ⟨k1, v1⟩ := p
    simp only [List.map_cons, List.nodup_cons] at hu
    rw [dictLookup] at h
    by_cases h1 : k1 = k
    · rw [if_pos h1] at h
      cases h
      subst h1
      have hnone : dictLookup us k1 = none :=
        dictLookup_eq_none_of_not_mem hu.1
      rw [dictUpdate_cons, dictLookup_dictUpdate_of_none _ hnone,
        dictLookup_dictSet_self]
    · rw [if_neg h1] at h
      rw [dictUpdate_cons]
      exact ih _ hu.2 h

/-! ## Auxiliary facts about Python equality and rendering -/

/-- For a string on either side, Python equality coincides with structural
equality. -/
theorem pyEq_str_iff (x : JSON) (s : String) :
    pyEq x (.str s) = true ↔ x = .str s := by
  cases x <;> simp [pyEq, pyEqF_step]

/-- `_get_annotation_user` only reads the `user` field. -/
theorem get_annotation_user_congr {a b : Obj}
    (h : dictLookup a "user" = dictLookup b "user") :
    get_annotation_user a = get_annotation_user b := by
  simp [get_annotation_user, dictGetD, h]

/-- The needle occurs contiguously in the haystack. -/
def StrContains (hay needle : String) : Prop :=
  needle.data <:+: hay.data

instance (hay needle : String) : Decidable (StrContains hay needle) :=
  List.decidableInfix needle.data hay.data

theorem StrContains_appends (a b c : String) : StrContains (a ++ b ++ c) b :=
  ⟨a.data, c.data, by simp [String.data_append]⟩

/-! ## Lemmas about the handler building blocks -/

/-- Full characterization of the filtered update record's bindings. -/
theorem dictLookup_update_payload (o : Obj) (id k : String) :
    dictLookup (update_payload o id) k =
      if k = "id" then some (.str id)
      else if k ∈ UPDATE_FILTER_FIELDS then none
      else dictLookup o k := by
  unfold update_payload
  by_cases hid : k = "id"
  · subst hid
    simp [dictLookup_dictSet_self, UPDATE_FILTER_FIELDS]
  · rw [dictLookup_dictSet_ne _ _ _ _ hid, dictLookup_filter_input, if_neg hid]

theorem nodup_keys_update_payload {o : Obj} (id : String)
    (h : (o.map Prod.fst).Nodup) :
    ((update_payload o id).map Prod.fst).Nodup :=
  nodup_keys_dictSet _ _ (nodup_keys_filter_input _ h)

/-- The record built by `create_annotation` before the `user` adjustment:
body minus `CREATE_FILTER_FIELDS` with `consumer` set. -/
theorem dictLookup_create_pre (u : User) (o : Obj) (k : String) :
    dictLookup (dictSet (filter_input o CREATE_FILTER_FIELDS) "consumer"
        (.str u.consumer.key)) k =
      if k = "consumer" then some (.str u.consumer.key)
      else if k ∈ CREATE_FILTER_FIELDS then none
      else dictLookup o k := by
  by_cases hc : k = "consumer"
  · subst hc
    simp [dictLookup_dictSet_self, CREATE_FILTER_FIELDS]
  · rw [dictLookup_dictSet_ne _ _ _ _ hc, dictLookup_filter_input, if_neg hc]

/-- The `user` adjustment of `create_record` does not change the resolved
user seen by `_get_annotation_user` relative to the raw body. -/
theorem get_annotation_user_create_pre (u : User) (o : Obj) :
    get_annotation_user (dictSet (filter_input o CREATE_FILTER_FIELDS) "consumer"
        (.str u.consumer.key)) = get_annotation_user o := by
  apply get_annotation_user_congr
  rw [dictLookup_create_pre]
  simp [CREATE_FILTER_FIELDS]

theorem dictLookup_map_s (args : Dict String) (k : String) :
    dictLookup (args.map (fun p => (p.1, KwargVal.s p.2))) k =
      (dictLookup args k).map .s := by
  induction args with
  | nil => rfl
  | cons p rest ih =>
    obtain ⟨k1, v1⟩ := p
    by_cases h : k1 = k <;> simp [dictLookup, h, ih]

theorem search_offset_step_lookup (kw : Kwargs) (k : String) :
    dictLookup (search_offset_step kw) k =
      if k = "offset" then (dictLookup kw "offset").map (fun v => .i (quiet_int v 0))
      else dictLookup kw k := by
  unfold search_offset_step
  cases h : dictLookup kw "offset" with
  | none => by_cases hk : k = "offset" <;> simp [hk, h]
  | some v =>
    by_cases hk : k = "offset"
    · subst hk; simp [h, dictLookup_dictSet_self]
    · simp [h, hk, dictLookup_dictSet_ne _ _ _ _ hk]

theorem search_limit_step_lookup (kw : Kwargs) (k : String) :
    dictLookup (search_limit_step kw) k =
      if k = "limit" then (dictLookup kw "limit").map (fun v => .i (quiet_int v 20))
      else dictLookup kw k := by
  unfold search_limit_step
  cases h : dictLookup kw "limit" with
  | none => by_cases hk : k = "limit" <;> simp [hk, h]
  | some v =>
    by_cases hk : k = "limit"
    · subst hk; simp [h, dictLookup_dictSet_self]
    · simp [h, hk, dictLookup_dictSet_ne _ _ _ _ hk]

/-- Full characterization of the criteria mapping `search_annotations`
passes to the backend. -/
theorem search_kwargs_lookup (args : Dict String) (k : String) :
    dictLookup (search_kwargs args) k =
      if k = "offset" then (dictLookup args k).map (fun v => .i ((pyInt v).getD 0))
      else if k = "limit" then (dictLookup args k).map (fun v => .i ((pyInt v).getD 20))
      else (dictLookup args k).map .s := by
  unfold search_kwargs
  rw [search_limit_step_lookup, search_offset_step_lookup, search_offset_step_lookup]
  by_cases ho : k = "offset"
  · subst ho
    simp [dictLookup_map_s, quiet_int]
    cases dictLookup args "offset" <;> simp [quiet_int]
  · by_cases hl : k = "limit"
    · subst hl
      simp [dictLookup_map_s, quiet_int]
      cases dictLookup args "limit" <;> simp [quiet_int]
    · simp [ho, hl, dictLookup_map_s]

theorem truthy_null : truthy JSON.null = false := rfl

/-! ## Claim theorems -/

/-- C4: for every create request with no identity bound to the request, the
response is the 401 authorization-failure response and no record is handed
to the storage save operation. -/
theorem create_unauthenticated_is_401 (env : Env) (reqJson : JSON)
    (h : env.user = none) :
    create_ann env reqJson =
      some (failed_authz_response "create annotation" none, []) ∧
    (failed_authz_response "create annotation" none).status = 401 := by
  refine ⟨?_, rfl⟩
  simp [create_ann, h]

/-- Witness for C4 at a concrete anonymous request. -/
theorem create_unauthenticated_is_401_w :
    create_ann ⟨none, fun _ _ _ => true, none, none⟩ (.obj [("text", .str "hi")]) =
      some (failed_authz_response "create annotation" none, []) ∧
    (failed_authz_response "create annotation" none).status = 401 :=
  create_unauthenticated_is_401 ⟨none, fun _ _ _ => true, none, none⟩
    (.obj [("text", .str "hi")]) rfl

/-- C8: an update request that passes the not-found and update-authorization
checks but carries no JSON body returns the stored record unchanged with
status 200, with no merge and no save. -/
theorem update_no_body_returns_unchanged (env : Env) (ann : Obj) (id : String)
    (hne : ann ≠ [])
    (hauth : env.authorize ann "update" env.user = true) :
    update_ann env (some ann) id .null = some (jsonify (.obj ann) 200, []) ∧
    (jsonify (.obj ann) 200).status = 200 := by
  refine ⟨?_, rfl⟩
  simp [update_ann, fetchFalsy, List.isEmpty_iff, hne, check_action, hauth, truthy]

/-- Witness for C8 at a concrete record and environment. -/
theorem update_no_body_returns_unchanged_w :
    update_ann ⟨some ⟨.str "alice", ⟨"ckey"⟩⟩, fun _ _ _ => true, none, none⟩
        (some [("id", .str "a1")]) "a1" .null =
      some (jsonify (.obj [("id", .str "a1")]) 200, []) ∧
    (jsonify (.obj [("id", .str "a1")]) 200).status = 200 :=
  update_no_body_returns_unchanged
    ⟨some ⟨.str "alice", ⟨"ckey"⟩⟩, fun _ _ _ => true, none, none⟩
    [("id", .str "a1")] "a1" (by decide) rfl

/-- C10: a JSON body that is falsy (`{}`, `null`, `false`, `0`, `[]`, ...)
is handled exactly like an absent body: the create handler answers 400 and
persists nothing (for an authenticated caller), and the update handler,
once the not-found and authorization checks pass, merges and saves nothing
and returns the stored record with status 200. -/
theorem falsy_body_like_absent (env : Env) (b : JSON) (ann : Obj)
    (fetched : Option Obj) (id : String) (u : User)
    (hb : truthy b = false) :
    create_ann env b = create_ann env .null ∧
    update_ann env fetched id b = update_ann env fetched id .null ∧
    (env.user = some u →
      create_ann env b =
        some (jsonify (.str "No JSON payload sent. Annotation not created.") 400, [])) ∧
    (ann ≠ [] → env.authorize ann "update" env.user = true →
      update_ann env (some ann) id b = some (jsonify (.obj ann) 200, [])) := by
  refine ⟨?_, ?_, ?_, ?_⟩
  · cases henv : env.user <;> simp [create_ann, henv, hb, truthy_null]
  · by_cases hf : fetchFalsy fetched = true
    · simp [update_ann, hf]
    · simp only [Bool.not_eq_true] at hf
      cases hca : check_action env (fetched.getD []) "update" "" <;>
        simp [update_ann, hf, hca, hb, truthy_null]
  · intro henv
    simp [create_ann, henv, hb]
  · intro hne hauth
    simp [update_ann, fetchFalsy, List.isEmpty_iff, hne, check_action, hauth, hb,
      truthy_null]

/-- Witness for C10 at the empty-object body. -/
theorem falsy_body_like_absent_w :
    create_ann ⟨some ⟨.str "alice", ⟨"ckey"⟩⟩, fun _ _ _ => true, none, none⟩ (.obj []) =
      create_ann ⟨some ⟨.str "alice", ⟨"ckey"⟩⟩, fun _ _ _ => true, none, none⟩ .null ∧
    update_ann ⟨some ⟨.str "alice", ⟨"ckey"⟩⟩, fun _ _ _ => true, none, none⟩
        (some [("id", .str "a1")]) "a1" (.obj []) =
      update_ann ⟨some ⟨.str "alice", ⟨"ckey"⟩⟩, fun _ _ _ => true, none, none⟩
        (some [("id", .str "a1")]) "a1" .null ∧
    ((⟨some ⟨.str "alice", ⟨"ckey"⟩⟩, fun _ _ _ => true, none, none⟩ : Env).user =
        some ⟨.str "alice", ⟨"ckey"⟩⟩ →
      create_ann ⟨some ⟨.str "alice", ⟨"ckey"⟩⟩, fun _ _ _ => true, none, none⟩ (.obj []) =
        some (jsonify (.str "No JSON payload sent. Annotation not created.") 400, [])) :=
  let env : Env := ⟨some ⟨.str "alice", ⟨"ckey"⟩⟩, fun _ _ _ => true, none, none⟩
  let h := falsy_body_like_absent env (.obj []) [("id", .str "a1")]
    (some [("id", .str "a1")]) "a1" ⟨.str "alice", ⟨"ckey"⟩⟩ rfl
  ⟨h.1, h.2.1, h.2.2.1⟩

/-- C9: the search handler passes the parsed criteria to the backend search
call, passes the same criteria mapping to the backend count call, and
returns `{"total": count, "rows": results}` with status 200; in the
criteria, `offset` is the integer parse of its query value with fallback 0,
`limit` the integer parse with fallback 20, and every other parameter is
forwarded as the string it arrived as. -/
theorem search_forwards_criteria (be : SearchBackend) (args : Dict String) :
    search_anns be args =
      (jsonify (.obj [("total", .num (be.count (search_kwargs args))),
                      ("rows", .arr (be.search (search_kwargs args)))]) 200,
       search_kwargs args, search_kwargs args) ∧
    (search_anns be args).1.status = 200 ∧
    (∀ v, dictLookup args "offset" = some v →
        dictLookup (search_kwargs args) "offset" = some (.i ((pyInt v).getD 0))) ∧
    (∀ v, dictLookup args "limit" = some v →
        dictLookup (search_kwargs args) "limit" = some (.i ((pyInt v).getD 20))) ∧
    (∀ k, k ≠ "offset" → k ≠ "limit" →
        dictLookup (search_kwargs args) k = (dictLookup args k).map .s) := by
  refine ⟨rfl, rfl, ?_, ?_, ?_⟩
  · intro v hv
    rw [search_kwargs_lookup]
    simp [hv]
  · intro v hv
    rw [search_kwargs_lookup]
    simp [hv]
  · intro k ho hl
    rw [search_kwargs_lookup, if_neg ho, if_neg hl]

/-- Witness for C9 at a concrete query with an unparsable limit, a parsable
offset and an opaque extra parameter. -/
theorem search_forwards_criteria_w :
    dictLookup (search_kwargs [("limit", "abc"), ("offset", "5"), ("q", "z")]) "limit" =
      some (.i 20) ∧
    dictLookup (search_kwargs [("limit", "abc"), ("offset", "5"), ("q", "z")]) "offset" =
      some (.i 5) ∧
    dictLookup (search_kwargs [("limit", "abc"), ("offset", "5"), ("q", "z")]) "q" =
      some (.s "z") := by
  have h := search_forwards_criteria ⟨fun _ => [], fun _ => 0⟩
    [("limit", "abc"), ("offset", "5"), ("q", "z")]
  refine ⟨?_, ?_, ?_⟩
  · have hl := h.2.2.2.1 "abc" rfl
    rw [hl]
    decide
  · have ho := h.2.2.1 "5" rfl
    rw [ho]
    decide
  · have hq := h.2.2.2.2 "q" (by decide) (by decide)
    rw [hq]
    decide

/-- C2: on an update whose body carries a `permissions` field differing (by
Python equality, missing stored permissions comparing as the empty dict)
from the stored record's, the handler performs the additional `"admin"`
authorization check with message context `"permissions update"`: when it is
denied the response is that 401 failure with nothing merged or saved; when
it is granted the handler proceeds to the merge and save. -/
theorem update_permissions_admin_check (env : Env) (ann o : Obj) (id : String)
    (p : JSON)
    (hne : ann ≠ [])
    (hupd : env.authorize ann "update" env.user = true)
    (hbody : o ≠ [])
    (hperm : dictLookup o "permissions" = some p)
    (hdiff : pyEq p (dictGetD ann "permissions" (.obj [])) = false) :
    (env.authorize ann "admin" env.user = false →
      update_ann env (some ann) id (.obj o) =
        some (failed_authz_response "permissions update" env.user, []) ∧
      (failed_authz_response "permissions update" env.user).status = 401) ∧
    (env.authorize ann "admin" env.user = true →
      update_ann env (some ann) id (.obj o) =
        some (merge_and_save env ann (update_payload o id))) := by
  have hfetch : fetchFalsy (some ann) = false := by
    simp [fetchFalsy, List.isEmpty_iff, hne]
  have hperm2 : dictLookup (update_payload o id) "permissions" = some p := by
    rw [dictLookup_update_payload]
    simp [UPDATE_FILTER_FIELDS, hperm]
  have hpc : perm_changed ann (update_payload o id) = true := by
    simp [perm_changed, hperm2, hdiff]
  constructor
  · intro hadmin
    refine ⟨?_, rfl⟩
    simp [update_ann, hfetch, check_action, hupd, truthy, List.isEmpty_iff, hbody,
      hpc, hadmin]
  · intro hadmin
    simp [update_ann, hfetch, check_action, hupd, truthy, List.isEmpty_iff, hbody,
      hpc, hadmin]

/-- Witness for C2: a caller authorized to update but not to admin sends a
permissions change and receives the 401. -/
theorem update_permissions_admin_check_w :
    update_ann ⟨some ⟨.str "alice", ⟨"ckey"⟩⟩, fun _ act _ => act == "update", none, none⟩
        (some [("id", .str "a1")]) "a1"
        (.obj [("permissions", .obj [("read", .arr [])])]) =
      some (failed_authz_response "permissions update"
        (some ⟨.str "alice", ⟨"ckey"⟩⟩), []) ∧
    (failed_authz_response "permissions update"
      (some ⟨.str "alice", ⟨"ckey"⟩⟩)).status = 401 :=
  (update_permissions_admin_check
    ⟨some ⟨.str "alice", ⟨"ckey"⟩⟩, fun _ act _ => act == "update", none, none⟩
    [("id", .str "a1")] [("permissions", .obj [("read", .arr [])])] "a1"
    (.obj [("read", .arr [])])
    (by decide) rfl (by decide) rfl rfl).1 rfl

/-- C3: an update with a JSON object body merges the filtered payload into
the stored record: `updated`, `created`, `user` and `consumer` are removed
from the payload, its `id` is the URL path id regardless of the body, and
the merge is shallow — keys present in the filtered payload replace the
stored binding, keys absent are untouched. -/
theorem update_merge_shape (env : Env) (ann o : Obj) (id : String)
    (hne : ann ≠ [])
    (hupd : env.authorize ann "update" env.user = true)
    (hbody : o ≠ [])
    (hnodup : (o.map Prod.fst).Nodup)
    (hhook : env.before_update_hook = none)
    (hpass : perm_changed ann (update_payload o id) = false ∨
      env.authorize ann "admin" env.user = true) :
    update_ann env (some ann) id (.obj o) =
      some (jsonify (.obj (dictUpdate ann (update_payload o id))) 200,
        [dictUpdate ann (update_payload o id)]) ∧
    dictLookup (update_payload o id) "updated" = none ∧
    dictLookup (update_payload o id) "created" = none ∧
    dictLookup (update_payload o id) "user" = none ∧
    dictLookup (update_payload o id) "consumer" = none ∧
    dictLookup (update_payload o id) "id" = some (.str id) ∧
    (∀ k v, dictLookup (update_payload o id) k = some v →
      dictLookup (dictUpdate ann (update_payload o id)) k = some v) ∧
    (∀ k, dictLookup (update_payload o id) k = none →
      dictLookup (dictUpdate ann (update_payload o id)) k = dictLookup ann k) := by
  have hfetch : fetchFalsy (some ann) = false := by
    simp [fetchFalsy, List.isEmpty_iff, hne]
  refine ⟨?_, ?_, ?_, ?_, ?_, ?_, ?_, ?_⟩
  · rcases hpass with hp | hp
    · simp [update_ann, hfetch, check_action, hupd, truthy, List.isEmpty_iff, hbody,
        hp, merge_and_save, hhook]
    · by_cases hpc : perm_changed ann (update_payload o id) = true
      · simp [update_ann, hfetch, check_action, hupd, truthy, List.isEmpty_iff, hbody,
          hpc, hp, merge_and_save, hhook]
      · simp only [Bool.not_eq_true] at hpc
        simp [update_ann, hfetch, check_action, hupd, truthy, List.isEmpty_iff, hbody,
          hpc, merge_and_save, hhook]
  · simp [dictLookup_update_payload, UPDATE_FILTER_FIELDS]
  · simp [dictLookup_update_payload, UPDATE_FILTER_FIELDS]
  · simp [dictLookup_update_payload, UPDATE_FILTER_FIELDS]
  · simp [dictLookup_update_payload, UPDATE_FILTER_FIELDS]
  · simp [dictLookup_update_payload]
  · intro k v h
    exact dictLookup_dictUpdate_of_some _ (nodup_keys_update_payload id hnodup) h
  · intro k h
    exact dictLookup_dictUpdate_of_none _ h

/-- Witness for C3: a body trying to overwrite `id` and `user` merges into
the stored record with the URL id kept, `user` untouched and an absent key
preserved. -/
theorem update_merge_shape_w :
    update_ann ⟨some ⟨.str "alice", ⟨"ckey"⟩⟩, fun _ _ _ => true, none, none⟩
        (some [("id", .str "a1"), ("text", .str "old"), ("keep", .num 7)]) "a1"
        (.obj [("text", .str "new"), ("id", .str "EVIL"), ("user", .str "mallory")]) =
      some (jsonify (.obj [("id", .str "a1"), ("text", .str "new"), ("keep", .num 7)]) 200,
        [[("id", .str "a1"), ("text", .str "new"), ("keep", .num 7)]]) :=
  (update_merge_shape
    ⟨some ⟨.str "alice", ⟨"ckey"⟩⟩, fun _ _ _ => true, none, none⟩
    [("id", .str "a1"), ("text", .str "old"), ("keep", .num 7)]
    [("text", .str "new"), ("id", .str "EVIL"), ("user", .str "mallory")] "a1"
    (by decide) rfl (by decide) (by decide) rfl (Or.inr rfl)).1

/-- Explicit form of the record built by `create_annotation`. -/
theorem create_record_eq (u : User) (o : Obj) :
    create_record u o =
      if !pyEq (get_annotation_user (dictSet (filter_input o CREATE_FILTER_FIELDS)
          "consumer" (.str u.consumer.key))) u.id
      then dictSet (dictSet (filter_input o CREATE_FILTER_FIELDS) "consumer"
          (.str u.consumer.key)) "user" u.id
      else dictSet (filter_input o CREATE_FILTER_FIELDS) "consumer"
          (.str u.consumer.key) := rfl

/-- C7: an authenticated create with a JSON object body discards the
client-supplied `updated`, `created` and `consumer` fields, and the record
handed to the storage save carries the caller's consumer key as its
`consumer`. -/
theorem create_sets_consumer (env : Env) (u : User) (o : Obj)
    (hu : env.user = some u)
    (hbody : o ≠ [])
    (hhook : env.after_create_hook = none) :
    create_ann env (.obj o) =
      some (jsonify (.obj (create_record u o)) 200, [create_record u o]) ∧
    dictLookup (create_record u o) "consumer" = some (.str u.consumer.key) ∧
    dictLookup (create_record u o) "updated" = none ∧
    dictLookup (create_record u o) "created" = none := by
  refine ⟨?_, ?_, ?_, ?_⟩
  · simp [create_ann, hu, truthy, List.isEmpty_iff, hbody, hhook]
  · rw [create_record_eq]
    by_cases hc : (!pyEq (get_annotation_user (dictSet (filter_input o CREATE_FILTER_FIELDS)
        "consumer" (.str u.consumer.key))) u.id) = true
    · rw [if_pos hc, dictLookup_dictSet_ne _ _ _ _ (by decide), dictLookup_create_pre]
      simp
    · rw [if_neg hc, dictLookup_create_pre]
      simp
  · rw [create_record_eq]
    by_cases hc : (!pyEq (get_annotation_user (dictSet (filter_input o CREATE_FILTER_FIELDS)
        "consumer" (.str u.consumer.key))) u.id) = true
    · rw [if_pos hc, dictLookup_dictSet_ne _ _ _ _ (by decide), dictLookup_create_pre]
      simp [CREATE_FILTER_FIELDS]
    · rw [if_neg hc, dictLookup_create_pre]
      simp [CREATE_FILTER_FIELDS]
  · rw [create_record_eq]
    by_cases hc : (!pyEq (get_annotation_user (dictSet (filter_input o CREATE_FILTER_FIELDS)
        "consumer" (.str u.consumer.key))) u.id) = true
    · rw [if_pos hc, dictLookup_dictSet_ne _ _ _ _ (by decide), dictLookup_create_pre]
      simp [CREATE_FILTER_FIELDS]
    · rw [if_neg hc, dictLookup_create_pre]
      simp [CREATE_FILTER_FIELDS]

/-- Witness for C7: a client-supplied `created` and `consumer` are dropped
and the caller's consumer key is stored. -/
theorem create_sets_consumer_w :
    create_ann ⟨some ⟨.str "alice", ⟨"ckey"⟩⟩, fun _ _ _ => true, none, none⟩
        (.obj [("text", .str "hi"), ("created", .str "yesterday"),
               ("consumer", .str "evil")]) =
      some (jsonify (.obj (create_record ⟨.str "alice", ⟨"ckey"⟩⟩
          [("text", .str "hi"), ("created", .str "yesterday"),
           ("consumer", .str "evil")])) 200,
        [create_record ⟨.str "alice", ⟨"ckey"⟩⟩
          [("text", .str "hi"), ("created", .str "yesterday"),
           ("consumer", .str "evil")]]) ∧
    dictLookup (create_record ⟨.str "alice", ⟨"ckey"⟩⟩
        [("text", .str "hi"), ("created", .str "yesterday"),
         ("consumer", .str "evil")]) "consumer" = some (.str "ckey") ∧
    dictLookup (create_record ⟨.str "alice", ⟨"ckey"⟩⟩
        [("text", .str "hi"), ("created", .str "yesterday"),
         ("consumer", .str "evil")]) "updated" = none ∧
    dictLookup (create_record ⟨.str "alice", ⟨"ckey"⟩⟩
        [("text", .str "hi"), ("created", .str "yesterday"),
         ("consumer", .str "evil")]) "created" = none :=
  create_sets_consumer
    ⟨some ⟨.str "alice", ⟨"ckey"⟩⟩, fun _ _ _ => true, none, none⟩
    ⟨.str "alice", ⟨"ckey"⟩⟩
    [("text", .str "hi"), ("created", .str "yesterday"), ("consumer", .str "evil")]
    rfl (by decide) rfl

/-- C1: on an authenticated create (caller id a non-empty bare string
identifier), the record handed to storage resolves to the caller as owner:
a body `user` whose resolved id (bare value or mapping's `id` key, Python
equality) differs from the caller's id is replaced by the caller's id,
while a body `user` already resolving to the caller's id is stored
verbatim. -/
theorem create_user_ownership (env : Env) (u : User) (o : Obj) (s : String)
    (hu : env.user = some u)
    (hid : u.id = .str s) (hs : s ≠ "")
    (hbody : o ≠ [])
    (hhook : env.after_create_hook = none) :
    create_ann env (.obj o) =
      some (jsonify (.obj (create_record u o)) 200, [create_record u o]) ∧
    get_annotation_user (create_record u o) = u.id ∧
    (get_annotation_user o = u.id →
      dictLookup (create_record u o) "user" = dictLookup o "user") ∧
    (get_annotation_user o ≠ u.id →
      dictLookup (create_record u o) "user" = some u.id) := by
  have hgau : get_annotation_user (dictSet (filter_input o CREATE_FILTER_FIELDS)
      "consumer" (.str u.consumer.key)) = get_annotation_user o :=
    get_annotation_user_create_pre u o
  by_cases hcase : get_annotation_user o = u.id
  · have hcond : (!pyEq (get_annotation_user (dictSet (filter_input o CREATE_FILTER_FIELDS)
        "consumer" (.str u.consumer.key))) u.id) = false := by
      rw [hgau, hcase, hid]
      simp [pyEq_str_iff]
    have hrec : create_record u o =
        dictSet (filter_input o CREATE_FILTER_FIELDS) "consumer" (.str u.consumer.key) := by
      rw [create_record_eq, hcond]
      simp
    refine ⟨?_, ?_, ?_, ?_⟩
    · simp [create_ann, hu, truthy, List.isEmpty_iff, hbody, hhook]
    · rw [hrec, hgau, hcase]
    · intro _
      rw [hrec, dictLookup_create_pre]
      simp [CREATE_FILTER_FIELDS]
    · intro hcontra
      exact absurd hcase hcontra
  · have hcond : (!pyEq (get_annotation_user (dictSet (filter_input o CREATE_FILTER_FIELDS)
        "consumer" (.str u.consumer.key))) u.id) = true := by
      rw [hgau, hid]
      have hne2 : get_annotation_user o ≠ .str s := by
        rw [← hid]; exact hcase
      cases hpe : pyEq (get_annotation_user o) (JSON.str s) with
      | false => rfl
      | true => exact absurd ((pyEq_str_iff _ _).mp hpe) hne2
    have hrec : create_record u o =
        dictSet (dictSet (filter_input o CREATE_FILTER_FIELDS) "consumer"
          (.str u.consumer.key)) "user" u.id := by
      rw [create_record_eq, hcond]
      simp
    refine ⟨?_, ?_, ?_, ?_⟩
    · simp [create_ann, hu, truthy, List.isEmpty_iff, hbody, hhook]
    · have hl : dictLookup (create_record u o) "user" = some u.id := by
        rw [hrec]
        exact dictLookup_dictSet_self _ _ _
      simp [get_annotation_user, dictGetD, hl, hid, truthy, hs]
    · intro hcontra
      exact absurd hcontra hcase
    · intro _
      rw [hrec]
      exact dictLookup_dictSet_self _ _ _

/-- Witness for C1: a body claiming `user` "bob" is stored with the
caller's id "alice". -/
theorem create_user_ownership_w :
    create_ann ⟨some ⟨.str "alice", ⟨"ckey"⟩⟩, fun _ _ _ => true, none, none⟩
        (.obj [("user", .str "bob"), ("text", .str "hi")]) =
      some (jsonify (.obj (create_record ⟨.str "alice", ⟨"ckey"⟩⟩
          [("user", .str "bob"), ("text", .str "hi")])) 200,
        [create_record ⟨.str "alice", ⟨"ckey"⟩⟩
          [("user", .str "bob"), ("text", .str "hi")]]) ∧
    get_annotation_user (create_record ⟨.str "alice", ⟨"ckey"⟩⟩
        [("user", .str "bob"), ("text", .str "hi")]) = .str "alice" ∧
    dictLookup (create_record ⟨.str "alice", ⟨"ckey"⟩⟩
        [("user", .str "bob"), ("text", .str "hi")]) "user" = some (.str "alice") :=
  let h := create_user_ownership
    ⟨some ⟨.str "alice", ⟨"ckey"⟩⟩, fun _ _ _ => true, none, none⟩
    ⟨.str "alice", ⟨"ckey"⟩⟩
    [("user", .str "bob"), ("text", .str "hi")] "alice"
    rfl rfl (by decide) (by decide) rfl
  ⟨h.1, h.2.1, h.2.2.2 (by decide)⟩

/-! ## The shape of authorization-failure responses -/

theorem check_action_some {env : Env} {ann : Obj} {action message : String}
    {failure : HttpResponse}
    (h : check_action env ann action message = some failure) :
    failure = failed_authz_response message env.user := by
  unfold check_action at h
  split at h
  · cases h
  · exact (Option.some.inj h).symm

theorem merge_and_save_status (env : Env) (ann updated : Obj) :
    (merge_and_save env ann updated).1.status = 200 := by
  unfold merge_and_save
  cases env.before_update_hook <;> rfl

/-- Every 401 message carries the rendered caller id and consumer key. -/
theorem failed_authz_content (msg : String) (u : Option User) :
    ∃ m, (failed_authz_response msg u).body = .str m ∧
      StrContains m ("user=" ++ userRender u) ∧
      StrContains m ("consumer=" ++ consumerRender u) := by
  refine ⟨_, rfl, ?_, ?_⟩
  · refine ⟨("Cannot authorize request" ++
        (if msg ≠ "" then " (" ++ msg ++ ")" else "") ++
        ". Perhaps you're not logged in as a user with appropriate permissions on this annotation? (").data,
      (", consumer=" ++ consumerRender u ++ ")").data, ?_⟩
    simp only [String.data_append]
    simp [List.append_assoc, List.cons_append]
  · refine ⟨("Cannot authorize request" ++
        (if msg ≠ "" then " (" ++ msg ++ ")" else "") ++
        ". Perhaps you're not logged in as a user with appropriate permissions on this annotation? (user=" ++
        userRender u ++ ", ").data, (")" : String).data, ?_⟩
    simp only [String.data_append]
    simp [List.append_assoc, List.cons_append]

/-- The read handler can only answer not-found, the generic 401 failure, or
the record with 200. -/
theorem read_ann_cases (env : Env) (fetched : Option Obj) :
    read_ann env fetched = jsonify (.str "Annotation not found!") 404 ∨
    read_ann env fetched = failed_authz_response "" env.user ∨
    read_ann env fetched = jsonify (.obj (fetched.getD [])) 200 := by
  unfold read_ann
  split
  · exact Or.inl rfl
  · dsimp only
    split
    · next failure heq => exact Or.inr (Or.inl (check_action_some heq))
    · exact Or.inr (Or.inr rfl)

/-- The update handler's possible responses. -/
theorem update_ann_cases (env : Env) (fetched : Option Obj) (id : String)
    (rj : JSON) (resp : HttpResponse) (saved : List Obj)
    (h : update_ann env fetched id rj = some (resp, saved)) :
    resp = jsonify (.str "Annotation not found! No update performed.") 404 ∨
    resp = failed_authz_response "" env.user ∨
    resp = failed_authz_response "permissions update" env.user ∨
    resp.status = 200 := by
  unfold update_ann at h
  split at h
  · simp only [Option.some.injEq, Prod.mk.injEq] at h
    exact Or.inl h.1.symm
  · dsimp only at h
    split at h
    · next failure heq =>
      simp only [Option.some.injEq, Prod.mk.injEq] at h
      exact Or.inr (Or.inl (h.1.symm.trans (check_action_some heq)))
    · split at h
      · split at h
        · split at h
          · split at h
            · next failure heq =>
              simp only [Option.some.injEq, Prod.mk.injEq] at h
              exact Or.inr (Or.inr (Or.inl (h.1.symm.trans (check_action_some heq))))
            · simp only [Option.some.injEq] at h
              have hr : _ = resp := congrArg Prod.fst h
              refine Or.inr (Or.inr (Or.inr ?_))
              rw [← hr]
              exact merge_and_save_status _ _ _
          · simp only [Option.some.injEq] at h
            have hr : _ = resp := congrArg Prod.fst h
            refine Or.inr (Or.inr (Or.inr ?_))
            rw [← hr]
            exact merge_and_save_status _ _ _
        · cases h
      · simp only [Option.some.injEq, Prod.mk.injEq] at h
        refine Or.inr (Or.inr (Or.inr ?_))
        rw [← h.1]
        rfl

/-- The delete handler's possible responses. -/
theorem delete_ann_cases (env : Env) (fetched : Option Obj) :
    (delete_ann env fetched).1 = jsonify (.str "Annotation not found. No delete performed.") 404 ∨
    (delete_ann env fetched).1 = failed_authz_response "" env.user ∨
    (delete_ann env fetched).1.status = 204 := by
  unfold delete_ann
  split
  · exact Or.inl rfl
  · dsimp only
    split
    · next failure heq => exact Or.inr (Or.inl (check_action_some heq))
    · exact Or.inr (Or.inr rfl)

/-- The create handler's possible responses. -/
theorem create_ann_cases (env : Env) (rj : JSON) (resp : HttpResponse)
    (saved : List Obj)
    (h : create_ann env rj = some (resp, saved)) :
    resp = failed_authz_response "create annotation" env.user ∨
    resp.status = 200 ∨ resp.status = 400 := by
  unfold create_ann at h
  split at h
  · next heq =>
    simp only [Option.some.injEq, Prod.mk.injEq] at h
    rw [heq]
    exact Or.inl h.1.symm
  · split at h
    · split at h
      · dsimp only at h
        split at h
        · simp only [Option.some.injEq, Prod.mk.injEq] at h
          refine Or.inr (Or.inl ?_)
          rw [← h.1]
          rfl
        · simp only [Option.some.injEq, Prod.mk.injEq] at h
          refine Or.inr (Or.inl ?_)
          rw [← h.1]
          rfl
      · cases h
    · simp only [Option.some.injEq, Prod.mk.injEq] at h
      refine Or.inr (Or.inr ?_)
      rw [← h.1]
      rfl

/-- C6 counterexample: a denied read for caller "alice" answers 401 with a
message that does not name the attempted action `"read"` anywhere
(`_check_action` passes only its empty `message` default, dropping the
action). -/
theorem authz_401_names_action_counterexample :
    read_ann ⟨some ⟨.str "alice", ⟨"ckey"⟩⟩, fun _ _ _ => false, none, none⟩
        (some [("id", .str "a1")]) =
      jsonify (.str "Cannot authorize request. Perhaps you're not logged in as a user with appropriate permissions on this annotation? (user=alice, consumer=ckey)") 401 ∧
    ¬ StrContains "Cannot authorize request. Perhaps you're not logged in as a user with appropriate permissions on this annotation? (user=alice, consumer=ckey)" "read" := by
  constructor
  · rfl
  · decide

/-- C6 amended: every 401 response of the read, update, delete and create
handlers carries a JSON string message that includes the rendered caller
user id and consumer key (rendered as `None` for an anonymous caller); the
message does not always name the attempted action. -/
theorem authz_401_message_content (env : Env) (fetched : Option Obj)
    (id : String) (rj : JSON) :
    ((read_ann env fetched).status = 401 →
      ∃ m, (read_ann env fetched).body = .str m ∧
        StrContains m ("user=" ++ userRender env.user) ∧
        StrContains m ("consumer=" ++ consumerRender env.user)) ∧
    (∀ resp saved, update_ann env fetched id rj = some (resp, saved) →
      resp.status = 401 →
      ∃ m, resp.body = .str m ∧
        StrContains m ("user=" ++ userRender env.user) ∧
        StrContains m ("consumer=" ++ consumerRender env.user)) ∧
    ((delete_ann env fetched).1.status = 401 →
      ∃ m, (delete_ann env fetched).1.body = .str m ∧
        StrContains m ("user=" ++ userRender env.user) ∧
        StrContains m ("consumer=" ++ consumerRender env.user)) ∧
    (∀ resp saved, create_ann env rj = some (resp, saved) →
      resp.status = 401 →
      ∃ m, resp.body = .str m ∧
        StrContains m ("user=" ++ userRender env.user) ∧
        StrContains m ("consumer=" ++ consumerRender env.user)) := by
  refine ⟨?_, ?_, ?_, ?_⟩
  · intro h401
    rcases read_ann_cases env fetched with hc | hc | hc
    · rw [hc] at h401
      simp [jsonify] at h401
    · rw [hc]
      exact failed_authz_content "" env.user
    · rw [hc] at h401
      simp [jsonify] at h401
  · intro resp saved h h401
    rcases update_ann_cases env fetched id rj resp saved h with hc | hc | hc | hc
    · rw [hc] at h401
      simp [jsonify] at h401
    · rw [hc]
      exact failed_authz_content "" env.user
    · rw [hc]
      exact failed_authz_content "permissions update" env.user
    · rw [h401] at hc
      simp at hc
  · intro h401
    rcases delete_ann_cases env fetched with hc | hc | hc
    · rw [hc] at h401
      simp [jsonify] at h401
    · rw [hc]
      exact failed_authz_content "" env.user
    · rw [h401] at hc
      simp at hc
  · intro resp saved h h401
    rcases create_ann_cases env rj resp saved h with hc | hc | hc
    · rw [hc]
      exact failed_authz_content "create annotation" env.user
    · rw [h401] at hc
      simp at hc
    · rw [h401] at hc
      simp at hc

/-- Witness for the amended C6 at a concrete denied delete. -/
theorem authz_401_message_content_w :
    ∃ m, (delete_ann ⟨some ⟨.str "alice", ⟨"ckey"⟩⟩, fun _ _ _ => false, none, none⟩
        (some [("id", .str "a1")])).1.body = .str m ∧
      StrContains m ("user=" ++ userRender (some ⟨.str "alice", ⟨"ckey"⟩⟩)) ∧
      StrContains m ("consumer=" ++ consumerRender (some ⟨.str "alice", ⟨"ckey"⟩⟩)) :=
  (authz_401_message_content
    ⟨some ⟨.str "alice", ⟨"ckey"⟩⟩, fun _ _ _ => false, none, none⟩
    (some [("id", .str "a1")]) "a1" .null).2.2.1 rfl

/-- C5 counterexample: with `limit=abc` the criteria passed to the backend
contain an explicit `limit` of 20, while with `limit` omitted they contain
no `limit` key; a backend sensitive to that difference yields a different
response, so the two requests are not identical. -/
theorem search_limit_abc_counterexample :
    search_kwargs [("limit", "abc")] ≠ search_kwargs [] ∧
    search_anns ⟨fun kw => [.num kw.length], fun kw => kw.length⟩ [("limit", "abc")] ≠
      search_anns ⟨fun kw => [.num kw.length], fun kw => kw.length⟩ [] := by
  constructor
  · decide
  · decide

/-- C5 amended: `limit=abc` makes the handler pass `limit=20` explicitly
(the stated default), while an omitted `limit` passes no `limit` key; for
every backend on which an explicit `limit` of 20 behaves like the default,
the HTTP response of the two requests is identical. -/
theorem search_limit_abc_default (be : SearchBackend)
    (hs : be.search [("limit", .i 20)] = be.search [])
    (hc : be.count [("limit", .i 20)] = be.count []) :
    (search_anns be [("limit", "abc")]).1 = (search_anns be []).1 ∧
    (search_anns be [("limit", "abc")]).2.1 = [("limit", .i 20)] ∧
    (search_anns be []).2.1 = [] := by
  have hk : search_kwargs [("limit", "abc")] = [("limit", .i 20)] := by decide
  refine ⟨?_, ?_, rfl⟩
  · show jsonify (.obj [("total", .num (be.count (search_kwargs [("limit", "abc")]))),
        ("rows", .arr (be.search (search_kwargs [("limit", "abc")])))]) 200 = _
    rw [hk, hs, hc]
    rfl
  · show search_kwargs [("limit", "abc")] = _
    exact hk

/-- Witness for the amended C5 at a backend that ignores its criteria. -/
theorem search_limit_abc_default_w :
    (search_anns ⟨fun _ => [], fun _ => 0⟩ [("limit", "abc")]).1 =
      (search_anns ⟨fun _ => [], fun _ => 0⟩ []).1 ∧
    (search_anns ⟨fun _ => [], fun _ => 0⟩ [("limit", "abc")]).2.1 = [("limit", .i 20)] ∧
    (search_anns ⟨fun _ => [], fun _ => 0⟩ []).2.1 = [] :=
  search_limit_abc_default ⟨fun _ => [], fun _ => 0⟩ rfl rfl
